import Mathlib

/-!
Verification of the announcements router of the High School Management System
API (`src/backend/routers/announcements.py`).

The router is a thin layer over two external collaborators:

* a document store holding an `announcements` collection and a `teachers`
  collection; we model the announcements collection as a list of documents
  together with a counter from which the store assigns fresh identifiers,
  and the teachers collection as the list of usernames that have a record;
* the Python standard library's `datetime.fromisoformat` (composed with the
  `.replace('Z', '+00:00')` preprocessing done by the router), which we model
  as an arbitrary predicate `validDate : String → Bool` saying which strings
  parse, since the parser's internals are outside the repository.

Every endpoint handler is translated to a pure function that takes the
request data and the current store and returns the HTTP outcome (success
value or error) together with the store after the call, so that theorems can
speak about what a failed call does to the store.
-/

namespace Announcements

/-- Error kinds of the service, with the `detail` string the handler attaches.
`unauthorized` renders as HTTP 401, `invalidArgument` as HTTP 400,
`notFound` as HTTP 404; `internal` stands for an unhandled exception escaping
the handler (no `raise HTTPException` in the source produces it). -/
inductive ApiError where
  | unauthorized : String → ApiError
  | invalidArgument : String → ApiError
  | notFound : String → ApiError
  | internal : ApiError
deriving DecidableEq, Repr

/-- A stored announcement document.  `id` is the BSON ObjectId the store
assigned, modelled as a natural number (see `objectIdToString`).  The store
is schemaless, so `start_date` and `expiration_date` are optional at this
level even though creation always sets `expiration_date`. -/
structure Announcement where
  id : Nat
  message : String
  start_date : Option String
  expiration_date : Option String
  created_by : String
  created_at : String
deriving DecidableEq, Repr

/-- An announcement as serialized at the HTTP boundary: the same fields with
the ObjectId turned into a string (`announcement["_id"] = str(announcement["_id"])`). -/
structure AnnouncementOut where
  id : String
  message : String
  start_date : Option String
  expiration_date : Option String
  created_by : String
  created_at : String
deriving DecidableEq, Repr

/-- The announcements collection: stored documents in insertion order, plus
the counter from which the store derives the next fresh ObjectId. -/
structure Store where
  docs : List Announcement
  nextId : Nat
deriving DecidableEq, Repr

/-! ### Model of BSON ObjectId strings

The repository treats identifiers as opaque: the store assigns them, `str`
serializes them, and `ObjectId(announcement_id)` either recovers one from a
string or raises for a structurally invalid string.  We model the assigned
identifiers as natural numbers and their string form as an injective decimal
encoding (standing in for the 24-hex-character rendering of a real ObjectId);
a string is structurally valid exactly when it decodes. -/

/-- The decimal digit character for `d < 10` (larger inputs are reduced). -/
def digitChar (d : Nat) : Char :=
  Char.ofNat (48 + d % 10)

/-- Decode a decimal digit character. -/
def charDigit? (c : Char) : Option Nat :=
  if 48 ≤ c.toNat ∧ c.toNat ≤ 57 then some (c.toNat - 48) else none

/-- Little-endian decimal digits of `n`, with explicit fuel so the
definition is structural. -/
def digitsAux : Nat → Nat → List Nat
  | 0, _ => []
  | _ + 1, 0 => []
  | fuel + 1, n + 1 => ((n + 1) % 10) :: digitsAux fuel ((n + 1) / 10)

/-- Value of a little-endian decimal digit list. -/
def decodeDigits : List Nat → Nat
  | [] => 0
  | d :: ds => d + 10 * decodeDigits ds

/-- String form of the ObjectId numbered `n` (the encoding is of `n + 1` so
that the string is never empty). -/
def objectIdToString (n : Nat) : String :=
  String.mk ((digitsAux (n + 1) (n + 1)).map digitChar)

/-- Decode every character of a list as a decimal digit, failing if any
character is not a digit. -/
def decodeChars : List Char → Option (List Nat)
  | [] => some []
  | c :: cs =>
    match charDigit? c, decodeChars cs with
    | some d, some ds => some (d :: ds)
    | _, _ => none

/-- Model of `ObjectId(s)`: recover the identifier number from a string, or
`none` when the string is structurally invalid. -/
def objectIdParse? (s : String) : Option Nat :=
  match decodeChars s.data with
  | some (d :: ds) => some (decodeDigits (d :: ds) - 1)
  | _ => none

theorem charDigit?_digitChar {d : Nat} (hd : d < 10) :
    charDigit? (digitChar d) = some d := by
  interval_cases d <;> rfl

theorem digitsAux_lt (fuel n : Nat) : ∀ d ∈ digitsAux fuel n, d < 10 := by
  induction fuel generalizing n with
  | zero => intro d hd; simp [digitsAux] at hd
  | succ fuel ih =>
    intro d hd
    match n with
    | 0 => simp [digitsAux] at hd
    | n + 1 =>
      simp only [digitsAux, List.mem_cons] at hd
      rcases hd with h | h
      · omega
      · exact ih _ d h

theorem decodeDigits_digitsAux {fuel n : Nat} (h : n ≤ fuel) :
    decodeDigits (digitsAux fuel n) = n := by
  induction fuel generalizing n with
  | zero => interval_cases n; rfl
  | succ fuel ih =>
    match n with
    | 0 => rfl
    | n + 1 =>
      have hdiv : (n + 1) / 10 ≤ fuel := by
        have := Nat.div_lt_self (Nat.succ_pos n) (by omega : 1 < 10)
        omega
      simp only [digitsAux, decodeDigits, ih hdiv]
      omega

theorem decodeChars_map_digitChar {ds : List Nat} (h : ∀ d ∈ ds, d < 10) :
    decodeChars (ds.map digitChar) = some ds := by
  induction ds with
  | nil => rfl
  | cons d ds ih =>
    have hd : d < 10 := h d (List.mem_cons_self d ds)
    have hds : ∀ x ∈ ds, x < 10 := fun x hx => h x (List.mem_cons_of_mem d hx)
    simp [decodeChars, charDigit?_digitChar hd, ih hds]

theorem objectIdParse?_objectIdToString (n : Nat) :
    objectIdParse? (objectIdToString n) = some n := by
  have hlt := digitsAux_lt (n + 1) (n + 1)
  have hmap := decodeChars_map_digitChar hlt
  have hdec : decodeDigits (digitsAux (n + 1) (n + 1)) = n + 1 :=
    decodeDigits_digitsAux (Nat.le_refl _)
  unfold objectIdToString objectIdParse?
  simp only [String.data]
  rw [hmap]
  match hds : digitsAux (n + 1) (n + 1) with
  | [] => rw [hds] at hdec; simp [decodeDigits] at hdec
  | d :: ds =>
    rw [hds] at hdec
    simp [hdec]

theorem objectIdToString_injective : Function.Injective objectIdToString := by
  intro a b hab
  have ha := objectIdParse?_objectIdToString a
  have hb := objectIdParse?_objectIdToString b
  rw [hab, hb] at ha
  exact (Option.some_injective _ ha).symm

/-! ### The endpoint handlers -/

/-- Serialize a stored document for a response:
`announcement["_id"] = str(announcement["_id"])`, all other fields verbatim. -/
def stringifyId (a : Announcement) : AnnouncementOut :=
  { id := objectIdToString a.id
    message := a.message
    start_date := a.start_date
    expiration_date := a.expiration_date
    created_by := a.created_by
    created_at := a.created_at }

/-- Python truthiness of `announcement.get(field)` on an optional string field:
`None` and the empty string are falsy, every other string is truthy. -/
def pyTruthy : Option String → Bool
  | none => false
  | some s => !(s == "")

/-- Lexicographic order on character lists, by code point: Python's `<` on
strings. -/
def lexLt : List Char → List Char → Bool
  | [], [] => false
  | [], _ :: _ => true
  | _ :: _, [] => false
  | a :: as, b :: bs => if a < b then true else if b < a then false else lexLt as bs

/-- Python's `<` on strings: code-point lexicographic comparison. -/
def strLt (a b : String) : Bool := lexLt a.data b.data

/-- The first `continue` of the active filter:
`announcement.get("start_date") and announcement["start_date"] > current_date`. -/
def startSkip (current_date : String) (a : Announcement) : Bool :=
  pyTruthy a.start_date && strLt current_date (a.start_date.getD "")

/-- The second `continue` of the active filter:
`announcement.get("expiration_date") and announcement["expiration_date"] < current_date`. -/
def expireSkip (current_date : String) (a : Announcement) : Bool :=
  pyTruthy a.expiration_date && strLt (a.expiration_date.getD "") current_date

/-- `GET /announcements` (`get_active_announcements`): no authentication;
keeps every stored announcement not skipped by the start/expiration checks,
in store order, with identifiers stringified.  `current_date` models
`datetime.now(timezone.utc).isoformat()`. -/
def get_active_announcements (current_date : String) (docs : List Announcement) :
    List AnnouncementOut :=
  (docs.filter fun a => !startSkip current_date a && !expireSkip current_date a).map stringifyId

/-- The request body of `POST /announcements` after FastAPI has bound it to
the `AnnouncementCreate` pydantic model (`message` and `expiration_date`
required, `start_date` optional). -/
structure AnnouncementCreate where
  message : String
  start_date : Option String
  expiration_date : String
deriving DecidableEq, Repr

/-- The request body of `PUT /announcements/{id}` after binding to the
`AnnouncementUpdate` pydantic model (every field optional). -/
structure AnnouncementUpdate where
  message : Option String
  start_date : Option String
  expiration_date : Option String
deriving DecidableEq, Repr

/-- The pydantic constraint on `AnnouncementCreate`:
`message: str = Field(..., min_length=1, max_length=500)`. -/
def AnnouncementCreate.schemaOk (p : AnnouncementCreate) : Bool :=
  1 ≤ p.message.length && p.message.length ≤ 500

/-- The pydantic constraint on `AnnouncementUpdate`:
`message: str | None = Field(None, min_length=1, max_length=500)`. -/
def AnnouncementUpdate.schemaOk (p : AnnouncementUpdate) : Bool :=
  match p.message with
  | none => true
  | some m => 1 ≤ m.length && m.length ≤ 500

/-- The authentication existence check shared by the mutating handlers:
`teachers_collection.find_one({"_id": username})` is a record exactly when
`username` is in the teachers collection. -/
def isTeacher (teachers : List String) (username : String) : Bool :=
  teachers.contains username

/-- `POST /announcements` (`create_announcement`).  `validDate s` models
whether `datetime.fromisoformat(s.replace('Z', '+00:00'))` succeeds, and
`now` models `datetime.now(timezone.utc).isoformat()`.  Mirrors the source:
authentication check, then date validation (the start date is validated only
when truthy, per `if announcement.start_date:`), then insertion. -/
def create_announcement (validDate : String → Bool) (teachers : List String)
    (p : AnnouncementCreate) (username now : String) (store : Store) :
    Except ApiError AnnouncementOut × Store :=
  if !isTeacher teachers username then
    (.error (.unauthorized "Authentication required"), store)
  else if pyTruthy p.start_date && !validDate (p.start_date.getD "") then
    (.error (.invalidArgument "Invalid date format"), store)
  else if !validDate p.expiration_date then
    (.error (.invalidArgument "Invalid date format"), store)
  else
    let doc : Announcement :=
      { id := store.nextId
        message := p.message
        start_date := p.start_date
        expiration_date := some p.expiration_date
        created_by := username
        created_at := now }
    (.ok (stringifyId doc), { docs := store.docs ++ [doc], nextId := store.nextId + 1 })

/-- The `$set` document built by `update_announcement`, applied to a stored
document: each field supplied in the body overwrites the stored field, every
other field keeps its prior value. -/
def applyUpdate (p : AnnouncementUpdate) (a : Announcement) : Announcement :=
  { a with
    message := p.message.getD a.message
    start_date := match p.start_date with
      | some s => some s
      | none => a.start_date
    expiration_date := match p.expiration_date with
      | some e => some e
      | none => a.expiration_date }

/-- Replace the first element satisfying `p` by its image under `f`
(`update_one` with a `$set`, on a collection modelled as a list). -/
def replaceFirst (p : α → Bool) (f : α → α) : List α → List α
  | [] => []
  | a :: as => if p a then f a :: as else a :: replaceFirst p f as

/-- `update_one` followed by the re-fetch and serialization at the end of
`update_announcement`.  The `none` branch models the unhandled `TypeError`
the Python would raise if the re-fetch found nothing; it is unreachable
because the document was just updated in place. -/
def performUpdate (oid : Nat) (p : AnnouncementUpdate) (store : Store) :
    Except ApiError AnnouncementOut × Store :=
  match (replaceFirst (fun a => a.id == oid) (applyUpdate p) store.docs).find?
      (fun a => a.id == oid) with
  | some u => (.ok (stringifyId u),
      { docs := replaceFirst (fun a => a.id == oid) (applyUpdate p) store.docs
        nextId := store.nextId })
  | none => (.error .internal,
      { docs := replaceFirst (fun a => a.id == oid) (applyUpdate p) store.docs
        nextId := store.nextId })

/-- `PUT /announcements/{announcement_id}` (`update_announcement`).  Mirrors
the source order: authentication, `ObjectId` parsing, existence lookup, then
the update document is built (message and start date verbatim, expiration
date validated when supplied), the empty-update check, and the write. -/
def update_announcement (validDate : String → Bool) (teachers : List String)
    (announcement_id : String) (p : AnnouncementUpdate) (username : String)
    (store : Store) : Except ApiError AnnouncementOut × Store :=
  if !isTeacher teachers username then
    (.error (.unauthorized "Authentication required"), store)
  else
    match objectIdParse? announcement_id with
    | none => (.error (.invalidArgument "Invalid announcement ID"), store)
    | some oid =>
      match store.docs.find? (fun a => a.id == oid) with
      | none => (.error (.notFound "Announcement not found"), store)
      | some _ =>
        match p.expiration_date with
        | some e =>
          if validDate e then performUpdate oid p store
          else (.error (.invalidArgument "Invalid date format"), store)
        | none =>
          if p.message == none && p.start_date == none then
            (.error (.invalidArgument "No fields to update"), store)
          else performUpdate oid p store

/-- `DELETE /announcements/{announcement_id}` (`delete_announcement`).
`delete_one` removes the first matching document and reports
`deleted_count = 1` exactly when a match existed. -/
def delete_announcement (teachers : List String) (announcement_id username : String)
    (store : Store) : Except ApiError String × Store :=
  if !isTeacher teachers username then
    (.error (.unauthorized "Authentication required"), store)
  else
    match objectIdParse? announcement_id with
    | none => (.error (.invalidArgument "Invalid announcement ID"), store)
    | some oid =>
      let docs' := store.docs.eraseP (fun a => a.id == oid)
      if store.docs.any (fun a => a.id == oid) then
        (.ok "Announcement deleted successfully", { docs := docs', nextId := store.nextId })
      else (.error (.notFound "Announcement not found"), store)

/-- `POST /announcements` seen from outside the process: FastAPI validates
the body against the pydantic model before the handler runs, and rejects a
message outside the length bounds without touching the store.  The spec's
error taxonomy classifies that rejection as `InvalidArgument`
(a message-length violation); the concrete HTTP rendering is the
framework's. -/
def create_endpoint (validDate : String → Bool) (teachers : List String)
    (p : AnnouncementCreate) (username now : String) (store : Store) :
    Except ApiError AnnouncementOut × Store :=
  if p.schemaOk then create_announcement validDate teachers p username now store
  else (.error (.invalidArgument "Invalid message length"), store)

/-- `PUT /announcements/{announcement_id}` seen from outside the process,
with the pydantic validation of the body in front of the handler. -/
def update_endpoint (validDate : String → Bool) (teachers : List String)
    (announcement_id : String) (p : AnnouncementUpdate) (username : String)
    (store : Store) : Except ApiError AnnouncementOut × Store :=
  if p.schemaOk then update_announcement validDate teachers announcement_id p username store
  else (.error (.invalidArgument "Invalid message length"), store)

/-! ### Helper lemmas -/

theorem applyUpdate_id (p : AnnouncementUpdate) (a : Announcement) :
    (applyUpdate p a).id = a.id := rfl

theorem lexLt_nil_right (l : List Char) : lexLt l [] = false := by
  cases l <;> rfl

theorem lexLt_irrefl (l : List Char) : lexLt l l = false := by
  induction l with
  | nil => rfl
  | cons a as ih => simp [lexLt, ih]

theorem strLt_empty_right (s : String) : strLt s "" = false :=
  lexLt_nil_right s.data

theorem strLt_irrefl (s : String) : strLt s s = false :=
  lexLt_irrefl s.data

theorem find?_replaceFirst {α} (p : α → Bool) (f : α → α)
    (hf : ∀ a, p (f a) = p a) (l : List α) :
    (replaceFirst p f l).find? p = (l.find? p).map f := by
  induction l with
  | nil => rfl
  | cons a as ih =>
    by_cases h : p a
    · simp [replaceFirst, h, List.find?_cons_of_pos, hf a]
    · simp only [replaceFirst, h]
      rw [if_neg (by simp [h])]
      rw [List.find?_cons_of_neg _ (by simp [h]), List.find?_cons_of_neg _ (by simp [h]), ih]

theorem mem_replaceFirst_of_neg {α} {p : α → Bool} {f : α → α} {b : α} {l : List α}
    (hb : b ∈ l) (hpb : p b = false) : b ∈ replaceFirst p f l := by
  induction l with
  | nil => simp at hb
  | cons a as ih =>
    rcases List.mem_cons.mp hb with rfl | h
    · simp [replaceFirst, hpb]
    · by_cases hpa : p a
      · simp [replaceFirst, hpa, List.mem_cons_of_mem, h]
      · simp only [replaceFirst, hpa, if_neg, Bool.false_eq_true, not_false_eq_true]
        exact List.mem_cons_of_mem _ (ih h)

theorem mem_replaceFirst {α} {p : α → Bool} {f : α → α} {x : α} {l : List α}
    (hx : x ∈ replaceFirst p f l) : x ∈ l ∨ ∃ b ∈ l, x = f b := by
  induction l with
  | nil => simp [replaceFirst] at hx
  | cons a as ih =>
    by_cases hpa : p a
    · simp only [replaceFirst, hpa, if_pos] at hx
      rcases List.mem_cons.mp hx with rfl | h
      · exact Or.inr ⟨a, List.mem_cons_self a as, rfl⟩
      · exact Or.inl (List.mem_cons_of_mem _ h)
    · simp only [replaceFirst, hpa, Bool.false_eq_true, if_neg, not_false_eq_true] at hx
      rcases List.mem_cons.mp hx with rfl | h
      · exact Or.inl (List.mem_cons_self _ _)
      · rcases ih h with h' | ⟨b, hb, rfl⟩
        · exact Or.inl (List.mem_cons_of_mem _ h')
        · exact Or.inr ⟨b, List.mem_cons_of_mem _ hb, rfl⟩

theorem any_eraseP_eq_false_of_nodup (oid : Nat) {l : List Announcement}
    (h : (l.map (fun a => a.id)).Nodup) :
    (l.eraseP (fun a => a.id == oid)).any (fun a => a.id == oid) = false := by
  induction l with
  | nil => rfl
  | cons a as ih =>
    rw [List.map_cons, List.nodup_cons] at h
    by_cases ha : (a.id == oid) = true
    · rw [List.eraseP_cons, ha, cond_true, List.any_eq_false]
      intro b hb hbeq
      apply h.1
      have hbid : b.id = oid := by simpa using hbeq
      have haid : a.id = oid := by simpa using ha
      rw [haid, ← hbid]
      exact List.mem_map_of_mem _ hb
    · rw [List.eraseP_cons, Bool.eq_false_iff.mpr ha, cond_false]
      simp only [List.any_cons, ih h.2, Bool.or_false]
      simpa using ha

/-- The success path of `update_announcement`: once authentication, identifier
parsing, the existence lookup, the expiration-date validation and the
non-empty-update check all pass, the first document matching the identifier is
overwritten field-by-field with the supplied values and the re-fetched result
is returned. -/
theorem update_success_eq (validDate : String → Bool) (teachers : List String)
    (announcement_id : String) (p : AnnouncementUpdate) (username : String)
    (store : Store) (oid : Nat) (d : Announcement)
    (hauth : isTeacher teachers username = true)
    (hid : objectIdParse? announcement_id = some oid)
    (hfind : store.docs.find? (fun a => a.id == oid) = some d)
    (hne : ¬(p.message = none ∧ p.start_date = none ∧ p.expiration_date = none))
    (hexp : ∀ e, p.expiration_date = some e → validDate e = true) :
    update_announcement validDate teachers announcement_id p username store
      = (.ok (stringifyId (applyUpdate p d)),
         { docs := replaceFirst (fun a => a.id == oid) (applyUpdate p) store.docs
           nextId := store.nextId }) := by
  have hperform : performUpdate oid p store
      = (.ok (stringifyId (applyUpdate p d)),
         { docs := replaceFirst (fun a => a.id == oid) (applyUpdate p) store.docs
           nextId := store.nextId }) := by
    unfold performUpdate
    rw [find?_replaceFirst _ _ (fun a => by rw [applyUpdate_id]) store.docs, hfind]
    rfl
  cases hpe : p.expiration_date with
  | some e =>
    have hv := hexp e hpe
    simp only [update_announcement, hauth, Bool.not_true, Bool.false_eq_true, if_false,
      hid, hfind, hpe, hv, if_true]
    exact hperform
  | none =>
    simp only [update_announcement, hauth, Bool.not_true, Bool.false_eq_true, if_false,
      hid, hfind, hpe]
    rw [if_neg ?_]
    · exact hperform
    · intro hcontra
      rw [Bool.and_eq_true, beq_iff_eq, beq_iff_eq] at hcontra
      exact hne ⟨hcontra.1, hcontra.2, hpe⟩

/-! ### The claims -/

/-- The exclusion condition exactly as the specification words it: the
announcement is excluded when `start_date` is present (a value is stored) and
lexicographically greater than the current timestamp, or `expiration_date` is
present and lexicographically less than the current timestamp.  This is the
spec-side definition to be compared with the code-side filter (which tests
Python truthiness, not presence). -/
def claimExcluded (current_date : String) (a : Announcement) : Bool :=
  (match a.start_date with
   | some s => strLt current_date s
   | none => false) ||
  (match a.expiration_date with
   | some e => strLt e current_date
   | none => false)

/-- C1: for every stored announcement, the list-active operation excludes it
exactly when its `start_date` is present and lexicographically greater than
the current timestamp, or its `expiration_date` is present and
lexicographically less than the current timestamp; all remaining
announcements are returned (in store order) with their identifiers
stringified.  No authentication is required: `get_active_announcements` takes
no username and consults no teachers collection.  The hypothesis rules out a
stored `expiration_date` that is the empty string — a value the endpoints can
never store, since expiration dates must parse on create and on update — on
which the code's truthiness test and the spec's presence test would differ. -/
theorem C1_get_active_matches_claim (current_date : String) (docs : List Announcement)
    (h : ∀ a ∈ docs, a.expiration_date ≠ some "") :
    get_active_announcements current_date docs
      = (docs.filter fun a => !claimExcluded current_date a).map stringifyId := by
  unfold get_active_announcements
  rw [List.filter_congr ?_]
  intro a ha
  have hexp := h a ha
  cases hs : a.start_date with
  | none =>
    cases he : a.expiration_date with
    | none => simp [startSkip, expireSkip, claimExcluded, pyTruthy, hs, he]
    | some e =>
      rw [he] at hexp
      have he' : ¬(e = "") := fun hc => hexp (by rw [hc])
      simp [startSkip, expireSkip, claimExcluded, pyTruthy, hs, he, he']
  | some s =>
    by_cases hs0 : s = ""
    · subst hs0
      cases he : a.expiration_date with
      | none =>
        simp [startSkip, expireSkip, claimExcluded, pyTruthy, hs, he, strLt_empty_right]
      | some e =>
        rw [he] at hexp
        have he' : ¬(e = "") := fun hc => hexp (by rw [hc])
        simp [startSkip, expireSkip, claimExcluded, pyTruthy, hs, he, he', strLt_empty_right]
    · cases he : a.expiration_date with
      | none =>
        have hsb : (s == "") = false := beq_eq_false_iff_ne.mpr hs0
        simp [startSkip, expireSkip, claimExcluded, pyTruthy, hs, he, hsb]
      | some e =>
        rw [he] at hexp
        have he' : ¬(e = "") := fun hc => hexp (by rw [hc])
        have hsb : (s == "") = false := beq_eq_false_iff_ne.mpr hs0
        have heb : (e == "") = false := beq_eq_false_iff_ne.mpr he'
        simp [startSkip, expireSkip, claimExcluded, pyTruthy, hs, he, hsb, heb]

/-- A concrete store for the C1 witness: one active announcement, one expired
one, one whose start date is still in the future. -/
def docsC1 : List Announcement :=
  [⟨0, "visible", none, some "2030-01-01T00:00:00+00:00", "alice", "2020-01-01T00:00:00+00:00"⟩,
   ⟨1, "expired", none, some "2020-01-01T00:00:00+00:00", "alice", "2019-01-01T00:00:00+00:00"⟩,
   ⟨2, "future", some "2031-01-01T00:00:00+00:00", some "2032-01-01T00:00:00+00:00", "alice",
    "2020-01-01T00:00:00+00:00"⟩]

/-- Witness for C1 at a concrete store and timestamp. -/
theorem C1_witness :
    (∀ a ∈ docsC1, a.expiration_date ≠ some "") ∧
    get_active_announcements "2025-06-01T00:00:00+00:00" docsC1
      = (docsC1.filter fun a => !claimExcluded "2025-06-01T00:00:00+00:00" a).map stringifyId :=
  ⟨by decide, C1_get_active_matches_claim "2025-06-01T00:00:00+00:00" docsC1 (by decide)⟩

/-- The comparison timestamp of the C2 counterexample. -/
def nowC2 : String := "2025-06-01T00:00:00+00:00"

/-- An announcement whose expiration date equals the comparison timestamp. -/
def annC2 : Announcement :=
  ⟨0, "boundary", none, some nowC2, "alice", "2025-01-01T00:00:00+00:00"⟩

/-- C2 counterexample: the claim says an announcement whose `expiration_date`
equals the current timestamp is excluded from the active list; on the code it
is returned.  The filter skips only when `expiration_date < current_date`,
which is false at equality, so the announcement survives the filter. -/
theorem C2_counterexample :
    annC2.expiration_date = some nowC2 ∧
    get_active_announcements nowC2 [annC2] = [stringifyId annC2] :=
  ⟨rfl, by decide⟩

/-- C2 amended: an announcement whose `expiration_date` equals the current
timestamp at comparison time is NOT excluded: the expiration check skips an
announcement only when its expiration date is strictly less than the current
timestamp, so at equality the announcement appears in the active list
(provided the start check does not exclude it).  The active window is
`[start_date, expiration_date]`, inclusive at both ends. -/
theorem C2_expiration_boundary_included (current_date : String) (docs : List Announcement)
    (a : Announcement) (ha : a ∈ docs) (he : a.expiration_date = some current_date)
    (hs : startSkip current_date a = false) :
    stringifyId a ∈ get_active_announcements current_date docs := by
  unfold get_active_announcements
  apply List.mem_map_of_mem
  apply List.mem_filter.mpr
  refine ⟨ha, ?_⟩
  have hexp : expireSkip current_date a = false := by
    unfold expireSkip
    rw [he]
    show (pyTruthy (some current_date) && strLt current_date current_date) = false
    rw [strLt_irrefl, Bool.and_false]
  rw [hs, hexp]
  rfl

/-- Witness for the amended C2 at a concrete store and timestamp. -/
theorem C2_witness :
    annC2 ∈ [annC2] ∧ annC2.expiration_date = some nowC2 ∧
    startSkip nowC2 annC2 = false ∧
    stringifyId annC2 ∈ get_active_announcements nowC2 [annC2] :=
  ⟨List.mem_singleton.mpr rfl, rfl, by decide,
   C2_expiration_boundary_included nowC2 [annC2] annC2 (List.mem_singleton.mpr rfl) rfl
     (by decide)⟩

/-- C3: a successful update with any non-empty subset of
`{message, start_date, expiration_date}` changes only the supplied fields of
the targeted announcement: the store afterwards has the first document
matching the identifier replaced field-by-field (supplied fields overwritten,
everything else — including `created_by` and `created_at` — retaining its
prior value), every other document is untouched, and the full post-update
record is returned. -/
theorem C3_update_frame (validDate : String → Bool) (teachers : List String)
    (announcement_id : String) (p : AnnouncementUpdate) (username : String)
    (store : Store) (oid : Nat) (d : Announcement)
    (hauth : isTeacher teachers username = true)
    (hid : objectIdParse? announcement_id = some oid)
    (hfind : store.docs.find? (fun a => a.id == oid) = some d)
    (hne : ¬(p.message = none ∧ p.start_date = none ∧ p.expiration_date = none))
    (hexp : ∀ e, p.expiration_date = some e → validDate e = true) :
    update_announcement validDate teachers announcement_id p username store
      = (.ok (stringifyId (applyUpdate p d)),
         { docs := replaceFirst (fun a => a.id == oid) (applyUpdate p) store.docs
           nextId := store.nextId })
    ∧ (applyUpdate p d).created_by = d.created_by
    ∧ (applyUpdate p d).created_at = d.created_at
    ∧ (applyUpdate p d).id = d.id
    ∧ (p.message = none → (applyUpdate p d).message = d.message)
    ∧ (∀ m, p.message = some m → (applyUpdate p d).message = m)
    ∧ (p.start_date = none → (applyUpdate p d).start_date = d.start_date)
    ∧ (∀ s, p.start_date = some s → (applyUpdate p d).start_date = some s)
    ∧ (p.expiration_date = none → (applyUpdate p d).expiration_date = d.expiration_date)
    ∧ (∀ e, p.expiration_date = some e → (applyUpdate p d).expiration_date = some e)
    ∧ (∀ b ∈ store.docs, (b.id == oid) = false →
        b ∈ replaceFirst (fun a => a.id == oid) (applyUpdate p) store.docs) := by
  refine ⟨update_success_eq validDate teachers announcement_id p username store oid d
    hauth hid hfind hne hexp, rfl, rfl, rfl, ?_, ?_, ?_, ?_, ?_, ?_, ?_⟩
  · intro hm; simp [applyUpdate, hm]
  · intro m hm; simp [applyUpdate, hm]
  · intro h0; simp [applyUpdate, h0]
  · intro s h0; simp [applyUpdate, h0]
  · intro h0; simp [applyUpdate, h0]
  · intro e h0; simp [applyUpdate, h0]
  · intro b hb hbo; exact mem_replaceFirst_of_neg hb hbo

/-- Witness for C3: updating only the message leaves the dates and the
creation metadata unchanged and returns the post-update record. -/
theorem C3_witness :
    update_announcement (fun _ => true) ["alice"] "1" ⟨some "new", none, none⟩ "alice"
        ⟨[⟨0, "old", some "s0", some "e0", "bob", "c0"⟩], 1⟩
      = (.ok ⟨"1", "new", some "s0", some "e0", "bob", "c0"⟩,
         ⟨[⟨0, "new", some "s0", some "e0", "bob", "c0"⟩], 1⟩) := by
  have h := C3_update_frame (fun _ => true) ["alice"] "1" ⟨some "new", none, none⟩ "alice"
    ⟨[⟨0, "old", some "s0", some "e0", "bob", "c0"⟩], 1⟩ 0
    ⟨0, "old", some "s0", some "e0", "bob", "c0"⟩
    rfl rfl (by decide) (by simp) (fun e he => nomatch he)
  exact h.1

/-- C4: when the supplied username has no teacher record, create, update and
delete all fail with `Unauthorized` — whatever the identifier, dates, message
or (for update) empty body — and the store is not modified. -/
theorem C4_unauthorized (validDate : String → Bool) (teachers : List String)
    (cp : AnnouncementCreate) (up : AnnouncementUpdate)
    (announcement_id username now : String) (store : Store)
    (h : isTeacher teachers username = false) :
    create_announcement validDate teachers cp username now store
      = (.error (.unauthorized "Authentication required"), store)
    ∧ update_announcement validDate teachers announcement_id up username store
      = (.error (.unauthorized "Authentication required"), store)
    ∧ delete_announcement teachers announcement_id username store
      = (.error (.unauthorized "Authentication required"), store) := by
  refine ⟨?_, ?_, ?_⟩ <;>
    simp [create_announcement, update_announcement, delete_announcement, h]

/-- Witness for C4: a username with no teacher record is rejected on all
three mutating endpoints, here with an otherwise perfectly valid payload on a
store holding one announcement. -/
theorem C4_witness :
    create_announcement (fun _ => true) ["alice"] ⟨"hello", none, "2030-01-01T00:00:00Z"⟩
        "mallory" "now" ⟨[⟨0, "m", none, some "e0", "alice", "c0"⟩], 1⟩
      = (.error (.unauthorized "Authentication required"),
         ⟨[⟨0, "m", none, some "e0", "alice", "c0"⟩], 1⟩)
    ∧ update_announcement (fun _ => true) ["alice"] "1" ⟨none, none, none⟩ "mallory"
        ⟨[⟨0, "m", none, some "e0", "alice", "c0"⟩], 1⟩
      = (.error (.unauthorized "Authentication required"),
         ⟨[⟨0, "m", none, some "e0", "alice", "c0"⟩], 1⟩)
    ∧ delete_announcement ["alice"] "1" "mallory"
        ⟨[⟨0, "m", none, some "e0", "alice", "c0"⟩], 1⟩
      = (.error (.unauthorized "Authentication required"),
         ⟨[⟨0, "m", none, some "e0", "alice", "c0"⟩], 1⟩) :=
  C4_unauthorized (fun _ => true) ["alice"] ⟨"hello", none, "2030-01-01T00:00:00Z"⟩
    ⟨none, none, none⟩ "1" "mallory" "now" ⟨[⟨0, "m", none, some "e0", "alice", "c0"⟩], 1⟩ rfl

/-- C5: for an authorized username, update fails with `InvalidArgument` on a
structurally invalid identifier; with `NotFound` when the identifier parses
but matches no stored announcement; with `InvalidArgument` when a supplied
expiration date does not parse; and with `InvalidArgument` when no field is
supplied — each case presupposing the previous checks passed, mirroring the
order of the source, and the store is returned unchanged on every failure. -/
theorem C5_update_failure_order (validDate : String → Bool) (teachers : List String)
    (announcement_id : String) (p : AnnouncementUpdate) (username : String) (store : Store)
    (hauth : isTeacher teachers username = true) :
    (objectIdParse? announcement_id = none →
      update_announcement validDate teachers announcement_id p username store
        = (.error (.invalidArgument "Invalid announcement ID"), store))
    ∧ (∀ oid, objectIdParse? announcement_id = some oid →
        store.docs.find? (fun a => a.id == oid) = none →
        update_announcement validDate teachers announcement_id p username store
          = (.error (.notFound "Announcement not found"), store))
    ∧ (∀ oid d e, objectIdParse? announcement_id = some oid →
        store.docs.find? (fun a => a.id == oid) = some d →
        p.expiration_date = some e → validDate e = false →
        update_announcement validDate teachers announcement_id p username store
          = (.error (.invalidArgument "Invalid date format"), store))
    ∧ (∀ oid d, objectIdParse? announcement_id = some oid →
        store.docs.find? (fun a => a.id == oid) = some d →
        p.message = none → p.start_date = none → p.expiration_date = none →
        update_announcement validDate teachers announcement_id p username store
          = (.error (.invalidArgument "No fields to update"), store)) := by
  refine ⟨?_, ?_, ?_, ?_⟩
  · intro hid
    simp [update_announcement, hauth, hid]
  · intro oid hid hfind
    simp [update_announcement, hauth, hid, hfind]
  · intro oid d e hid hfind hpe hv
    simp [update_announcement, hauth, hid, hfind, hpe, hv]
  · intro oid d hid hfind hm h0 hpe
    simp [update_announcement, hauth, hid, hfind, hm, h0, hpe]

/-- The one-announcement store used by the C5 and C6 witnesses. -/
def storeW : Store := ⟨[⟨0, "m", none, some "GOOD", "alice", "c0"⟩], 1⟩

/-- Witness for C5: the four failure modes at concrete inputs — a
non-decoding identifier, an identifier with no matching document, an
expiration date the parser rejects, and an empty update body. -/
theorem C5_witness :
    update_announcement (fun s => s == "GOOD") ["alice"] "zzz" ⟨none, none, none⟩ "alice" storeW
      = (.error (.invalidArgument "Invalid announcement ID"), storeW)
    ∧ update_announcement (fun s => s == "GOOD") ["alice"] "2" ⟨none, none, none⟩ "alice" storeW
      = (.error (.notFound "Announcement not found"), storeW)
    ∧ update_announcement (fun s => s == "GOOD") ["alice"] "1" ⟨none, none, some "BAD"⟩
        "alice" storeW
      = (.error (.invalidArgument "Invalid date format"), storeW)
    ∧ update_announcement (fun s => s == "GOOD") ["alice"] "1" ⟨none, none, none⟩ "alice" storeW
      = (.error (.invalidArgument "No fields to update"), storeW) :=
  ⟨(C5_update_failure_order (fun s => s == "GOOD") ["alice"] "zzz" ⟨none, none, none⟩
      "alice" storeW rfl).1 rfl,
   (C5_update_failure_order (fun s => s == "GOOD") ["alice"] "2" ⟨none, none, none⟩
      "alice" storeW rfl).2.1 1 rfl rfl,
   (C5_update_failure_order (fun s => s == "GOOD") ["alice"] "1" ⟨none, none, some "BAD"⟩
      "alice" storeW rfl).2.2.1 0 ⟨0, "m", none, some "GOOD", "alice", "c0"⟩ "BAD"
      rfl rfl rfl rfl,
   (C5_update_failure_order (fun s => s == "GOOD") ["alice"] "1" ⟨none, none, none⟩
      "alice" storeW rfl).2.2.2 0 ⟨0, "m", none, some "GOOD", "alice", "c0"⟩
      rfl rfl rfl rfl rfl⟩

/-- C6: for an authorized username and a structurally valid identifier,
delete fails with `NotFound` when no stored document matches (leaving the
store as it was), and on a match removes the first matching document and
returns the confirmation payload.  When stored identifiers are distinct — as
the store guarantees — the removal is permanent: no document with that
identifier remains, and a second delete of the same identifier fails with
`NotFound` and leaves the store unchanged. -/
theorem C6_delete_contract (teachers : List String) (announcement_id username : String)
    (store : Store) (oid : Nat)
    (hauth : isTeacher teachers username = true)
    (hid : objectIdParse? announcement_id = some oid) :
    (store.docs.any (fun a => a.id == oid) = false →
      delete_announcement teachers announcement_id username store
        = (.error (.notFound "Announcement not found"), store))
    ∧ (store.docs.any (fun a => a.id == oid) = true →
      delete_announcement teachers announcement_id username store
        = (.ok "Announcement deleted successfully",
           ⟨store.docs.eraseP (fun a => a.id == oid), store.nextId⟩))
    ∧ ((store.docs.map (fun a => a.id)).Nodup →
        store.docs.any (fun a => a.id == oid) = true →
        (∀ b ∈ store.docs.eraseP (fun a => a.id == oid), (b.id == oid) = false)
        ∧ delete_announcement teachers announcement_id username
            ⟨store.docs.eraseP (fun a => a.id == oid), store.nextId⟩
          = (.error (.notFound "Announcement not found"),
             ⟨store.docs.eraseP (fun a => a.id == oid), store.nextId⟩)) := by
  refine ⟨?_, ?_, ?_⟩
  · intro h
    simp [delete_announcement, hauth, hid, h]
  · intro h
    simp [delete_announcement, hauth, hid, h]
  · intro hnodup h
    have herased := any_eraseP_eq_false_of_nodup oid hnodup
    refine ⟨?_, ?_⟩
    · intro b hb
      exact Bool.eq_false_iff.mpr (List.any_eq_false.mp herased b hb)
    · simp [delete_announcement, hauth, hid, herased]

/-- Witness for C6: deleting the only announcement succeeds and empties the
store; deleting it again reports `NotFound`. -/
theorem C6_witness :
    delete_announcement ["alice"] "1" "alice" storeW
      = (.ok "Announcement deleted successfully", ⟨[], 1⟩)
    ∧ delete_announcement ["alice"] "1" "alice" (⟨[], 1⟩ : Store)
      = (.error (.notFound "Announcement not found"), ⟨[], 1⟩) :=
  ⟨(C6_delete_contract ["alice"] "1" "alice" storeW 0 rfl rfl).2.1 rfl,
   ((C6_delete_contract ["alice"] "1" "alice" storeW 0 rfl rfl).2.2 (by decide) rfl).2⟩

/-- Any successful create returns a record carrying the identifier the store
assigned from its counter. -/
theorem create_ok_id (validDate : String → Bool) (teachers : List String)
    (p : AnnouncementCreate) (username now : String) (store : Store)
    (out : AnnouncementOut)
    (h : (create_announcement validDate teachers p username now store).fst = .ok out) :
    out.id = objectIdToString store.nextId := by
  unfold create_announcement at h
  split at h
  · simp at h
  · split at h
    · simp at h
    · split at h
      · simp at h
      · simp only [stringifyId] at h
        rw [← (Except.ok.injEq _ _).mp h]

/-- C7: a successful authorized create with valid dates persists exactly one
new document, appended to the store, whose `message`, `start_date` and
`expiration_date` equal the input, whose `created_by` is the supplied
username and whose `created_at` is the current timestamp; the full record,
including the store-assigned identifier, is returned, and any subsequent
successful create — whatever its payload — is assigned a different
identifier. -/
theorem C7_create_persists (validDate : String → Bool) (teachers : List String)
    (p : AnnouncementCreate) (username now : String) (store : Store)
    (hauth : isTeacher teachers username = true)
    (hstart : pyTruthy p.start_date = true → validDate (p.start_date.getD "") = true)
    (hexp : validDate p.expiration_date = true) :
    create_announcement validDate teachers p username now store
      = (.ok (stringifyId ⟨store.nextId, p.message, p.start_date,
          some p.expiration_date, username, now⟩),
         ⟨store.docs ++ [⟨store.nextId, p.message, p.start_date,
          some p.expiration_date, username, now⟩], store.nextId + 1⟩)
    ∧ (stringifyId (⟨store.nextId, p.message, p.start_date, some p.expiration_date,
        username, now⟩ : Announcement)).id = objectIdToString store.nextId
    ∧ (∀ p2 username2 now2 out2,
        (create_announcement validDate teachers p2 username2 now2
          ⟨store.docs ++ [⟨store.nextId, p.message, p.start_date,
           some p.expiration_date, username, now⟩], store.nextId + 1⟩).fst = .ok out2 →
        out2.id ≠ objectIdToString store.nextId) := by
  have h2 : (pyTruthy p.start_date && !validDate (p.start_date.getD "")) = false := by
    cases hpt : pyTruthy p.start_date
    · rfl
    · rw [hstart hpt]; rfl
  refine ⟨?_, rfl, ?_⟩
  · simp [create_announcement, hauth, h2, hexp]
  · intro p2 username2 now2 out2 hok heq
    have hid2 := create_ok_id validDate teachers p2 username2 now2 _ out2 hok
    rw [hid2] at heq
    exact Nat.succ_ne_self store.nextId (objectIdToString_injective heq)

/-- Witness for C7: creating from a store whose counter is at 5 appends the
document, returns it with the assigned identifier, and a second create gets a
different identifier. -/
theorem C7_witness :
    create_announcement (fun _ => true) ["alice"] ⟨"hello", none, "2030-01-01T00:00:00Z"⟩
        "alice" "t1" ⟨[], 5⟩
      = (.ok ⟨"6", "hello", none, some "2030-01-01T00:00:00Z", "alice", "t1"⟩,
         ⟨[⟨5, "hello", none, some "2030-01-01T00:00:00Z", "alice", "t1"⟩], 6⟩)
    ∧ (stringifyId ⟨6, "world", none, some "2031-01-01T00:00:00Z", "alice", "t2"⟩).id
        ≠ objectIdToString 5 := by
  have h := C7_create_persists (fun _ => true) ["alice"]
    ⟨"hello", none, "2030-01-01T00:00:00Z"⟩ "alice" "t1" ⟨[], 5⟩ rfl (fun _ => rfl) rfl
  exact ⟨h.1, h.2.2 ⟨"world", none, "2031-01-01T00:00:00Z"⟩ "alice" "t2"
    (stringifyId ⟨6, "world", none, some "2031-01-01T00:00:00Z", "alice", "t2"⟩) (by rfl)⟩

/-- The concrete date parser of the C8 counterexample: exactly one string is
parseable; in particular the empty string is not (Python's
`datetime.fromisoformat` raises `ValueError` on `""`). -/
def validDateC8 : String → Bool := fun s => s == "2030-01-01T00:00:00+00:00"

/-- C8 counterexample: the claim says an authorized create fails with
`InvalidArgument` whenever a supplied `start_date` cannot be parsed; but
`create_announcement` guards the start-date validation with Python
truthiness (`if announcement.start_date:`), so a supplied empty-string
`start_date` — which is not parseable — skips validation entirely: the call
succeeds and the document is persisted with `start_date = ""`. -/
theorem C8_counterexample :
    validDateC8 "" = false
    ∧ create_announcement validDateC8 ["alice"]
        ⟨"hello", some "", "2030-01-01T00:00:00+00:00"⟩ "alice" "t0" ⟨[], 0⟩
      = (.ok ⟨"1", "hello", some "", some "2030-01-01T00:00:00+00:00", "alice", "t0"⟩,
         ⟨[⟨0, "hello", some "", some "2030-01-01T00:00:00+00:00", "alice", "t0"⟩], 1⟩) :=
  ⟨rfl, rfl⟩

/-- C8 amended: for an authorized create, the operation fails with
`InvalidArgument` ("Invalid date format") whenever the supplied
`expiration_date` cannot be parsed, or the supplied `start_date` is given,
non-empty, and cannot be parsed; and the store is unchanged in that case. -/
theorem C8_create_date_validation (validDate : String → Bool) (teachers : List String)
    (p : AnnouncementCreate) (username now : String) (store : Store)
    (hauth : isTeacher teachers username = true)
    (hbad : (pyTruthy p.start_date = true ∧ validDate (p.start_date.getD "") = false)
      ∨ validDate p.expiration_date = false) :
    create_announcement validDate teachers p username now store
      = (.error (.invalidArgument "Invalid date format"), store) := by
  rcases hbad with ⟨hpt, hv⟩ | hv
  · simp [create_announcement, hauth, hpt, hv]
  · simp [create_announcement, hauth, hv]

/-- Witness for the amended C8: an unparsable expiration date is rejected
without touching the store. -/
theorem C8_witness :
    validDateC8 "NOT A DATE" = false
    ∧ create_announcement validDateC8 ["alice"] ⟨"hello", none, "NOT A DATE"⟩
        "alice" "t0" ⟨[], 0⟩
      = (.error (.invalidArgument "Invalid date format"), ⟨[], 0⟩) :=
  ⟨rfl, C8_create_date_validation validDateC8 ["alice"] ⟨"hello", none, "NOT A DATE"⟩
    "alice" "t0" ⟨[], 0⟩ rfl (Or.inr rfl)⟩

/-- The store after any `create_announcement` call: unchanged, or with the
new document appended. -/
theorem create_announcement_snd (validDate : String → Bool) (teachers : List String)
    (p : AnnouncementCreate) (username now : String) (store : Store) :
    (create_announcement validDate teachers p username now store).snd.docs = store.docs
    ∨ (create_announcement validDate teachers p username now store).snd.docs
      = store.docs ++ [⟨store.nextId, p.message, p.start_date, some p.expiration_date,
          username, now⟩] := by
  unfold create_announcement
  split
  · left; rfl
  · split
    · left; rfl
    · split
      · left; rfl
      · right; rfl

/-- The documents after any `performUpdate` call. -/
theorem performUpdate_snd (oid : Nat) (p : AnnouncementUpdate) (store : Store) :
    (performUpdate oid p store).snd.docs
      = replaceFirst (fun a => a.id == oid) (applyUpdate p) store.docs := by
  unfold performUpdate
  split <;> rfl

/-- The store after any `update_announcement` call: unchanged, or with the
first matching document rewritten through the supplied fields. -/
theorem update_announcement_snd (validDate : String → Bool) (teachers : List String)
    (announcement_id : String) (p : AnnouncementUpdate) (username : String)
    (store : Store) :
    (update_announcement validDate teachers announcement_id p username store).snd.docs
      = store.docs
    ∨ ∃ oid, (update_announcement validDate teachers announcement_id p username store).snd.docs
        = replaceFirst (fun a => a.id == oid) (applyUpdate p) store.docs := by
  unfold update_announcement
  split
  · left; rfl
  · split
    · left; rfl
    · split
      · left; rfl
      · split
        · split
          · right; exact ⟨_, performUpdate_snd _ p store⟩
          · left; rfl
        · split
          · left; rfl
          · right; exact ⟨_, performUpdate_snd _ p store⟩

/-- The store after any `delete_announcement` call: unchanged, or with the
first matching document erased. -/
theorem delete_announcement_snd (teachers : List String)
    (announcement_id username : String) (store : Store) :
    (delete_announcement teachers announcement_id username store).snd.docs = store.docs
    ∨ ∃ oid, (delete_announcement teachers announcement_id username store).snd.docs
        = store.docs.eraseP (fun a => a.id == oid) := by
  unfold delete_announcement
  split
  · left; rfl
  · split
    · left; rfl
    · split
      · right; exact ⟨_, rfl⟩
      · left; rfl

/-- Every stored message is non-empty and at most 500 characters. -/
def msgInv (docs : List Announcement) : Prop :=
  ∀ a ∈ docs, 1 ≤ a.message.length ∧ a.message.length ≤ 500

/-- C9: on create, and on update when a message is supplied, the message is
accepted only when its length is between 1 and 500 characters inclusive — a
message outside the bounds is rejected as `InvalidArgument` with the store
untouched — and consequently the mutating endpoints preserve the invariant
that every stored message is non-empty and at most 500 characters. -/
theorem C9_message_bounds (validDate : String → Bool) (teachers : List String)
    (cp : AnnouncementCreate) (up : AnnouncementUpdate)
    (announcement_id username now : String) (store : Store) :
    (¬(1 ≤ cp.message.length ∧ cp.message.length ≤ 500) →
      create_endpoint validDate teachers cp username now store
        = (.error (.invalidArgument "Invalid message length"), store))
    ∧ (∀ m, up.message = some m → ¬(1 ≤ m.length ∧ m.length ≤ 500) →
      update_endpoint validDate teachers announcement_id up username store
        = (.error (.invalidArgument "Invalid message length"), store))
    ∧ (msgInv store.docs →
        msgInv (create_endpoint validDate teachers cp username now store).snd.docs
        ∧ msgInv (update_endpoint validDate teachers announcement_id up username store).snd.docs
        ∧ msgInv (delete_announcement teachers announcement_id username store).snd.docs) := by
  refine ⟨?_, ?_, ?_⟩
  · intro h
    have hs : cp.schemaOk = false := by
      unfold AnnouncementCreate.schemaOk
      rcases not_and_or.mp h with h1 | h1 <;> simp [h1]
    simp [create_endpoint, hs]
  · intro m hm h
    have hs : up.schemaOk = false := by
      unfold AnnouncementUpdate.schemaOk
      rw [hm]
      rcases not_and_or.mp h with h1 | h1 <;> simp [h1]
    simp [update_endpoint, hs]
  · intro hinv
    refine ⟨?_, ?_, ?_⟩
    · unfold create_endpoint
      split
      · rename_i hsch
        have hbounds : 1 ≤ cp.message.length ∧ cp.message.length ≤ 500 := by
          simpa [AnnouncementCreate.schemaOk] using hsch
        rcases create_announcement_snd validDate teachers cp username now store with h | h
        · rw [h]; exact hinv
        · rw [h]
          intro a ha
          rcases List.mem_append.mp ha with ha | ha
          · exact hinv a ha
          · rw [List.mem_singleton.mp ha]
            exact hbounds
      · exact hinv
    · unfold update_endpoint
      split
      · rename_i hsch
        rcases update_announcement_snd validDate teachers announcement_id up username store
          with h | ⟨oid, h⟩
        · rw [h]; exact hinv
        · rw [h]
          intro a ha
          rcases mem_replaceFirst ha with ha | ⟨b, hb, rfl⟩
          · exact hinv a ha
          · have hbm := hinv b hb
            unfold applyUpdate
            cases hm : up.message with
            | none => simpa [hm] using hbm
            | some m =>
              have : 1 ≤ m.length ∧ m.length ≤ 500 := by
                simpa [AnnouncementUpdate.schemaOk, hm] using hsch
              simpa [hm] using this
      · exact hinv
    · rcases delete_announcement_snd teachers announcement_id username store
        with h | ⟨oid, h⟩
      · rw [h]; exact hinv
      · rw [h]
        intro a ha
        exact hinv a ((store.docs.eraseP_sublist (p := fun a => a.id == oid)).subset ha)

/-- Witness for C9: an empty message is rejected on create and on update, and
the invariant holds across a concrete successful create, update and delete. -/
theorem C9_witness :
    create_endpoint (fun _ => true) ["alice"] ⟨"", none, "2030-01-01T00:00:00Z"⟩
        "alice" "t0" storeW
      = (.error (.invalidArgument "Invalid message length"), storeW)
    ∧ update_endpoint (fun _ => true) ["alice"] "1" ⟨some "", none, none⟩ "alice" storeW
      = (.error (.invalidArgument "Invalid message length"), storeW)
    ∧ (msgInv (create_endpoint (fun _ => true) ["alice"] ⟨"ok", none, "2030"⟩
          "alice" "t0" storeW).snd.docs
       ∧ msgInv (update_endpoint (fun _ => true) ["alice"] "1" ⟨some "ok2", none, none⟩
          "alice" storeW).snd.docs
       ∧ msgInv (delete_announcement ["alice"] "1" "alice" storeW).snd.docs) :=
  ⟨(C9_message_bounds (fun _ => true) ["alice"] ⟨"", none, "2030-01-01T00:00:00Z"⟩
      ⟨some "", none, none⟩ "1" "alice" "t0" storeW).1 (by decide),
   (C9_message_bounds (fun _ => true) ["alice"] ⟨"", none, "2030-01-01T00:00:00Z"⟩
      ⟨some "", none, none⟩ "1" "alice" "t0" storeW).2.1 "" rfl (by decide),
   (C9_message_bounds (fun _ => true) ["alice"] ⟨"ok", none, "2030"⟩
      ⟨some "ok2", none, none⟩ "1" "alice" "t0" storeW).2.2 (by unfold msgInv; decide)⟩

/-- C10: on update, a supplied `start_date` is never format-validated: for an
authorized update of an existing announcement, any start-date string — the
date parser is universally quantified here and is never consulted on it —
is accepted and stored verbatim; only a supplied `expiration_date` is
parse-checked. -/
theorem C10_update_start_verbatim (validDate : String → Bool) (teachers : List String)
    (announcement_id : String) (p : AnnouncementUpdate) (username : String)
    (store : Store) (oid : Nat) (d : Announcement) (s : String)
    (hauth : isTeacher teachers username = true)
    (hid : objectIdParse? announcement_id = some oid)
    (hfind : store.docs.find? (fun a => a.id == oid) = some d)
    (hstart : p.start_date = some s)
    (hexp : ∀ e, p.expiration_date = some e → validDate e = true) :
    update_announcement validDate teachers announcement_id p username store
      = (.ok (stringifyId (applyUpdate p d)),
         ⟨replaceFirst (fun a => a.id == oid) (applyUpdate p) store.docs, store.nextId⟩)
    ∧ (stringifyId (applyUpdate p d)).start_date = some s
    ∧ (applyUpdate p d).start_date = some s := by
  have hne : ¬(p.message = none ∧ p.start_date = none ∧ p.expiration_date = none) := by
    rintro ⟨-, h2, -⟩
    rw [hstart] at h2
    cases h2
  refine ⟨update_success_eq validDate teachers announcement_id p username store oid d
    hauth hid hfind hne hexp, ?_, ?_⟩
  · simp [stringifyId, applyUpdate, hstart]
  · simp [applyUpdate, hstart]

/-- Witness for C10: the string "NOT A DATE", which the parser of this
witness rejects, is nevertheless stored verbatim as the start date by an
update. -/
theorem C10_witness :
    validDateC8 "NOT A DATE" = false
    ∧ update_announcement validDateC8 ["alice"] "1" ⟨none, some "NOT A DATE", none⟩
        "alice" ⟨[⟨0, "m", none, some "GOOD", "alice", "c0"⟩], 1⟩
      = (.ok ⟨"1", "m", some "NOT A DATE", some "GOOD", "alice", "c0"⟩,
         ⟨[⟨0, "m", some "NOT A DATE", some "GOOD", "alice", "c0"⟩], 1⟩) :=
  ⟨rfl, by
    have h := C10_update_start_verbatim validDateC8 ["alice"] "1"
      ⟨none, some "NOT A DATE", none⟩ "alice" ⟨[⟨0, "m", none, some "GOOD", "alice", "c0"⟩], 1⟩
      0 ⟨0, "m", none, some "GOOD", "alice", "c0"⟩ "NOT A DATE"
      rfl rfl rfl rfl (fun e he => nomatch he)
    exact h.1⟩

end Announcements
